import Mathlib

/-!
Shallow embedding of `lambda.py` from the Automated Receipt Processing
System repository: an S3-upload-triggered pipeline that verifies the
uploaded object, analyzes it with Textract `analyze_expense`, maps the
response into a receipt record, stores the record in DynamoDB, and sends
a best-effort email notification via SES.

External services (S3 `head_object`, Textract `analyze_expense`,
DynamoDB `put_item`, SES `send_email`) are modelled as an environment of
oracles, together with the per-invocation UUID and clock values.  The
handler is a pure function from the environment and the trigger event to
its HTTP-style response paired with a trace of the external calls made,
so that properties about which services were or were not invoked can be
stated directly.
-/

namespace ReceiptPipeline

/-- One Textract expense field. `typeText` models
`field.get('Type', {}).get('Text', ...)` being present (`none` when either
key is absent), and `valueText` models `field.get('ValueDetection',
{}).get('Text', ...)` likewise. -/
structure ExpenseField where
  typeText : Option String
  valueText : Option String
  deriving Repr, DecidableEq

/-- One line item of a Textract line-item group:
`line_item.get('LineItemExpenseFields', [])` (an absent key behaves as the
empty list, exactly as the `.get` default does). -/
structure LineItem where
  lineItemExpenseFields : List ExpenseField
  deriving Repr, DecidableEq

/-- One line-item group: `group['LineItems']`; an absent `'LineItems'` key
makes the loop body do nothing, which is the same as the empty list. -/
structure LineItemGroup where
  lineItems : List LineItem
  deriving Repr, DecidableEq

/-- One expense document of the Textract response: `'SummaryFields'` and
`'LineItemGroups'`; for each one, an absent key skips the corresponding
loop, which behaves exactly as the empty list. -/
structure ExpenseDoc where
  summaryFields : List ExpenseField
  lineItemGroups : List LineItemGroup
  deriving Repr, DecidableEq

/-- The Textract `analyze_expense` response: its `'ExpenseDocuments'` list.
The source guards with `'ExpenseDocuments' in response and
response['ExpenseDocuments']`, which is equivalent to the list being
non-empty (an absent key and an empty list both skip the block). -/
structure TextractResponse where
  expenseDocuments : List ExpenseDoc
  deriving Repr, DecidableEq

/-- The per-line-item dictionary `item = {}` built by the mapper loop: a
field is `some v` exactly when the corresponding key has been assigned, so
`name.isSome` models the `'name' in item` membership test. -/
structure ItemDict where
  name : Option String
  price : Option String
  quantity : Option String
  deriving Repr, DecidableEq

/-- The `receipt_data` dictionary built by `process_receipt_with_textract`. -/
structure ReceiptData where
  receipt_id : String
  date : String
  vendor : String
  total : String
  items : List ItemDict
  s3_path : String
  deriving Repr, DecidableEq

/-- One normalized line item as prepared for DynamoDB (`items_for_db`): all
three fields are unconditionally present strings. -/
structure DbLineItem where
  name : String
  price : String
  quantity : String
  deriving Repr, DecidableEq

/-- The `db_item` written to DynamoDB: `receipt_id` is the partition key and
`date` the sort key. -/
structure DbItem where
  receipt_id : String
  date : String
  vendor : String
  total : String
  items : List DbLineItem
  s3_path : String
  processed_timestamp : String
  deriving Repr, DecidableEq

/-- One SES `send_email` request as assembled by `send_email_notification`. -/
structure EmailMsg where
  source : String
  toAddresses : List String
  subject : String
  htmlBody : String
  deriving Repr, DecidableEq

/-- Outcome of the notifier: the message it dispatched and the error it
caught and logged, if any.  The function has no error channel in its type:
a notification failure can only be recorded, never propagated. -/
structure NotifyResult where
  msg : EmailMsg
  loggedError : Option String
  deriving Repr, DecidableEq

/-- The dictionary returned by `lambda_handler`. -/
structure HandlerResponse where
  statusCode : Nat
  body : String
  deriving Repr, DecidableEq

/-- Trace of the external calls one invocation performed, in order:
Textract `analyze_expense` calls (bucket, key), DynamoDB `put_item`
attempts, and SES `send_email` attempts with their caught outcome. -/
structure Trace where
  textractCalls : List (String × String)
  putCalls : List DbItem
  emailCalls : List NotifyResult
  deriving Repr, DecidableEq

/-- The environment of one invocation: oracles for the four external
service calls, the value `str(uuid.uuid4())` returns on this run, the value
`datetime.now().strftime('%Y-%m-%d')` returns, and the value
`datetime.now().isoformat()` returns. -/
structure Env where
  headObject : String → String → Except String Unit
  analyzeExpense : String → String → Except String TextractResponse
  putItem : DbItem → Except String Unit
  sendEmail : EmailMsg → Except String Unit
  uuid : String
  today : String
  nowIso : String

/-- An S3 event record as far as the handler reads it:
`record['s3']['bucket']['name']` and `record['s3']['object']['key']`, each
`none` when any key along the path is missing. -/
structure EventRecord where
  bucketName : Option String
  objectKey : Option String
  deriving Repr, DecidableEq

/-- The trigger event: `event['Records']` (empty or missing ⇒ the `[0]`
index raises). -/
structure Event where
  records : List EventRecord
  deriving Repr, DecidableEq

/-- Hexadecimal value of one character, `none` for a non-hex character. -/
def hexVal (c : Char) : Option Nat :=
  if '0' ≤ c ∧ c ≤ '9' then some (c.toNat - '0'.toNat)
  else if 'a' ≤ c ∧ c ≤ 'f' then some (c.toNat - 'a'.toNat + 10)
  else if 'A' ≤ c ∧ c ≤ 'F' then some (c.toNat - 'A'.toNat + 10)
  else none

/-- Character-level model of `urllib.parse.unquote_plus`: `+` becomes a
space and `%hh` becomes the character with code `hh`; a malformed escape is
kept verbatim.  The first argument counts characters still to be skipped
after a decoded escape, so the recursion is structural on the list.
(Multi-byte UTF-8 escape sequences are modelled byte-by-byte, which is
irrelevant to every claim below.) -/
def unquotePlusChars : Nat → List Char → List Char
  | _, [] => []
  | skip + 1, _ :: rest => unquotePlusChars skip rest
  | 0, c :: rest =>
    if c = '+' then ' ' :: unquotePlusChars 0 rest
    else if c = '%' then
      match rest[0]?.bind hexVal, rest[1]?.bind hexVal with
      | some hi, some lo => Char.ofNat (16 * hi + lo) :: unquotePlusChars 2 rest
      | _, _ => '%' :: unquotePlusChars 0 rest
    else c :: unquotePlusChars 0 rest

/-- `urllib.parse.unquote_plus` on a string. -/
def unquote_plus (s : String) : String :=
  String.mk (unquotePlusChars 0 s.data)

/-- Model of `json.dumps` applied to a plain string (quote it, escaping
backslashes and double quotes). -/
def jsonDumps (s : String) : String :=
  "\"" ++ String.join (s.data.map fun c =>
    if c = '"' then "\\\"" else if c = '\\' then "\\\\" else String.mk [c]) ++ "\""

/-- Lines 43–47: read `event['Records'][0]['s3']['bucket']['name']` and the
percent-decoded `event['Records'][0]['s3']['object']['key']`; any missing
piece raises (a `KeyError` / `IndexError` caught by the outer handler). -/
def parseEvent (e : Event) : Except String (String × String) :=
  match e.records with
  | [] => .error "IndexError: list index out of range"
  | r :: _ =>
    match r.bucketName with
    | none => .error "KeyError: name"
    | some bucket =>
      match r.objectKey with
      | none => .error "KeyError: key"
      | some rawKey => .ok (bucket, unquote_plus rawKey)

/-- Lines 151–167: one iteration of the summary-field loop.  The
`INVOICE_RECEIPT_DATE` branch wraps a bare assignment in `try/except`, so
it always assigns (the vestigial handler can never fire). -/
def processSummaryField (rd : ReceiptData) (f : ExpenseField) : ReceiptData :=
  let field_type := f.typeText.getD ""
  let value := f.valueText.getD ""
  if field_type = "TOTAL" then { rd with total := value }
  else if field_type = "INVOICE_RECEIPT_DATE" then { rd with date := value }
  else if field_type = "VENDOR_NAME" then { rd with vendor := value }
  else rd

/-- Lines 180–190: one iteration of the per-line-item field loop, updating
the `item` dictionary. -/
def processLineItemField (it : ItemDict) (f : ExpenseField) : ItemDict :=
  let field_type := f.typeText.getD ""
  let value := f.valueText.getD ""
  if field_type = "ITEM" then { it with name := some value }
  else if field_type = "PRICE" then { it with price := some value }
  else if field_type = "QUANTITY" then { it with quantity := some value }
  else it

/-- Lines 176–190: build the `item` dictionary of one line item, starting
from the empty dictionary. -/
def buildItem (li : LineItem) : ItemDict :=
  li.lineItemExpenseFields.foldl processLineItemField ⟨none, none, none⟩

/-- Whether a line item carries at least one `ITEM`-tagged field. -/
def hasItemField (li : LineItem) : Bool :=
  li.lineItemExpenseFields.any fun f => f.typeText.getD "" = "ITEM"

/-- All line items of all groups, in iteration order. -/
def lineItemsOf (groups : List LineItemGroup) : List LineItem :=
  groups.flatMap fun g => g.lineItems

/-- Lines 173–194: the nested line-item loops.  Each line item is turned
into its dictionary and appended iff `'name' in item` (lines 192–194). -/
def extract_items (groups : List LineItemGroup) : List ItemDict :=
  ((lineItemsOf groups).map buildItem).filter fun it => it.name.isSome

/-- Lines 122–198 of `process_receipt_with_textract`, after the Textract
call has succeeded with `response`: build `receipt_data` with its defaults
(lines 130–137), then overwrite from the first expense document's summary
fields and collect its line items.  `receipt_id` is the run's UUID and
`today` the run's `datetime.now().strftime('%Y-%m-%d')`. -/
def process_receipt_with_textract (bucket key receipt_id today : String)
    (response : TextractResponse) : ReceiptData :=
  let receipt_data : ReceiptData :=
    { receipt_id := receipt_id
      date := today
      vendor := "Unknown"
      total := "0.00"
      items := []
      s3_path := "s3://" ++ bucket ++ "/" ++ key }
  match response.expenseDocuments with
  | [] => receipt_data
  | expense_doc :: _ =>
    let rd := expense_doc.summaryFields.foldl processSummaryField receipt_data
    { rd with items := rd.items ++ extract_items expense_doc.lineItemGroups }

/-- Lines 220–226: normalize one item for DynamoDB, defaulting the missing
fields. -/
def normalizeItem (it : ItemDict) : DbLineItem :=
  { name := it.name.getD "Unknown Item"
    price := it.price.getD "0.00"
    quantity := it.quantity.getD "1" }

/-- Lines 220–241 of `store_receipt_in_dynamodb`: the `db_item` assembled
for the single `put_item` call, with `nowIso` the run's
`datetime.now().isoformat()`. -/
def store_receipt_in_dynamodb (receipt_data : ReceiptData) (nowIso : String) : DbItem :=
  { receipt_id := receipt_data.receipt_id
    date := receipt_data.date
    vendor := receipt_data.vendor
    total := receipt_data.total
    items := receipt_data.items.map normalizeItem
    s3_path := receipt_data.s3_path
    processed_timestamp := nowIso }

/-- Lines 265–274: the HTML item list of the notification email, with the
placeholder line when no items were detected. -/
def items_html (items : List ItemDict) : String :=
  let s := items.foldl (fun acc it =>
    acc ++ "<li>" ++ it.name.getD "Unknown Item" ++ " - $" ++ it.price.getD "N/A"
        ++ " x " ++ it.quantity.getD "1" ++ "</li>") ""
  if s = "" then "<li>No items detected</li>" else s

/-- Lines 280–318: the SES request `send_email_notification` assembles,
using the configured sender and recipient addresses. -/
def build_email_message (senderEmail recipientEmail : String)
    (rd : ReceiptData) : EmailMsg :=
  { source := senderEmail
    toAddresses := [recipientEmail]
    subject := "Receipt Processed: " ++ rd.vendor ++ " - $" ++ rd.total
    htmlBody :=
      "\n        <html>\n        <body>\n"
        ++ "            <h2>📧 Receipt Processing Notification</h2>\n"
        ++ "            <p><strong>Receipt ID:</strong> " ++ rd.receipt_id ++ "</p>\n"
        ++ "            <p><strong>Vendor:</strong> " ++ rd.vendor ++ "</p>\n"
        ++ "            <p><strong>Date:</strong> " ++ rd.date ++ "</p>\n"
        ++ "            <p><strong>Total Amount:</strong> $" ++ rd.total ++ "</p>\n"
        ++ "            <p><strong>S3 Location:</strong> " ++ rd.s3_path ++ "</p>\n\n"
        ++ "            <h3>📋 Items:</h3>\n            <ul>\n                "
        ++ items_html rd.items
        ++ "\n            </ul>\n\n"
        ++ "            <p>✅ The receipt has been processed and stored in DynamoDB.</p>\n"
        ++ "        </body>\n        </html>\n        " }

/-- Lines 253–325: `send_email_notification`.  The whole body is wrapped in
`try/except Exception` (lines 322–325), so a send failure is caught and
logged; the return type has no error channel, so no failure can reach the
caller. -/
def send_email_notification (env : Env) (senderEmail recipientEmail : String)
    (rd : ReceiptData) : NotifyResult :=
  let msg := build_email_message senderEmail recipientEmail rd
  match env.sendEmail msg with
  | .ok _ => { msg := msg, loggedError := none }
  | .error e => { msg := msg, loggedError := some e }

/-- The configured sender address used by the embedding (the environment
variable with its hardcoded fallback; its exact value is irrelevant to
every claim). -/
def SES_SENDER_EMAIL : String := "sender_email"

/-- The configured recipient address used by the embedding. -/
def SES_RECIPIENT_EMAIL : String := "receiver_email"

/-- Lines 26–86: `lambda_handler`.  Sequentially: parse the event, verify
the object with `head_object` (lines 55–60, re-raised with the wrapped
message), run Textract + mapper, store in DynamoDB, then notify; every
exception of those steps is caught by the outer `except` and mapped to a
500 response (lines 80–86), while a notifier failure is swallowed inside
`send_email_notification`.  Returns the response and the trace of external
calls. -/
def lambda_handler (env : Env) (event : Event) : HandlerResponse × Trace :=
  match parseEvent event with
  | .error msg =>
    ({ statusCode := 500, body := jsonDumps ("Error: " ++ msg) }, ⟨[], [], []⟩)
  | .ok (bucket, key) =>
    match env.headObject bucket key with
    | .error e =>
      ({ statusCode := 500
         body := jsonDumps ("Error: Unable to access object " ++ key ++ " in bucket "
           ++ bucket ++ ": " ++ e) }, ⟨[], [], []⟩)
    | .ok _ =>
      match env.analyzeExpense bucket key with
      | .error e =>
        ({ statusCode := 500, body := jsonDumps ("Error: " ++ e) },
         ⟨[(bucket, key)], [], []⟩)
      | .ok response =>
        let receipt_data := process_receipt_with_textract bucket key env.uuid env.today response
        let db_item := store_receipt_in_dynamodb receipt_data env.nowIso
        match env.putItem db_item with
        | .error e =>
          ({ statusCode := 500, body := jsonDumps ("Error: " ++ e) },
           ⟨[(bucket, key)], [db_item], []⟩)
        | .ok _ =>
          let notify := send_email_notification env SES_SENDER_EMAIL SES_RECIPIENT_EMAIL receipt_data
          ({ statusCode := 200, body := jsonDumps "Receipt processed successfully!" },
           ⟨[(bucket, key)], [db_item], [notify]⟩)

end ReceiptPipeline

namespace ReceiptPipeline

/-! Helper lemmas about the field mapper and the handler. -/

lemma processSummaryField_receipt_id (rd : ReceiptData) (f : ExpenseField) :
    (processSummaryField rd f).receipt_id = rd.receipt_id := by
  simp only [processSummaryField]
  split_ifs <;> rfl

lemma processSummaryField_items (rd : ReceiptData) (f : ExpenseField) :
    (processSummaryField rd f).items = rd.items := by
  simp only [processSummaryField]
  split_ifs <;> rfl

lemma summary_foldl_receipt_id (fs : List ExpenseField) (rd : ReceiptData) :
    (fs.foldl processSummaryField rd).receipt_id = rd.receipt_id := by
  induction fs generalizing rd with
  | nil => rfl
  | cons f fs ih => rw [List.foldl_cons, ih, processSummaryField_receipt_id]

lemma summary_foldl_items (fs : List ExpenseField) (rd : ReceiptData) :
    (fs.foldl processSummaryField rd).items = rd.items := by
  induction fs generalizing rd with
  | nil => rfl
  | cons f fs ih => rw [List.foldl_cons, ih, processSummaryField_items]

lemma process_receipt_id (bucket key receipt_id today : String)
    (response : TextractResponse) :
    (process_receipt_with_textract bucket key receipt_id today response).receipt_id
      = receipt_id := by
  unfold process_receipt_with_textract
  match response.expenseDocuments with
  | [] => rfl
  | doc :: rest => simp [summary_foldl_receipt_id]

lemma process_items_eq (bucket key receipt_id today : String) (doc : ExpenseDoc)
    (rest : List ExpenseDoc) :
    (process_receipt_with_textract bucket key receipt_id today ⟨doc :: rest⟩).items
      = extract_items doc.lineItemGroups := by
  unfold process_receipt_with_textract
  simp [summary_foldl_items]

lemma foldl_lineItemField_name (fs : List ExpenseField) (it : ItemDict) :
    (fs.foldl processLineItemField it).name.isSome
      = (it.name.isSome || fs.any fun f => f.typeText.getD "" = "ITEM") := by
  induction fs generalizing it with
  | nil => simp
  | cons f fs ih =>
    rw [List.foldl_cons, List.any_cons, ih]
    simp only [processLineItemField]
    split_ifs with h1 h2 h3 <;> simp [h1]

lemma buildItem_name_isSome (li : LineItem) :
    (buildItem li).name.isSome = hasItemField li := by
  rw [buildItem, hasItemField, foldl_lineItemField_name]
  rfl

lemma length_filter_lt_of_mem_not {α} (p : α → Bool) (l : List α) (x : α)
    (hx : x ∈ l) (hpx : p x = false) : (l.filter p).length < l.length := by
  refine lt_of_le_of_ne (List.length_filter_le p l) fun h => ?_
  have := List.filter_length_eq_length.mp h x hx
  rw [hpx] at this
  exact Bool.false_ne_true this

lemma lambda_handler_success (env : Env) (event : Event) (b k : String)
    (resp : TextractResponse)
    (hparse : parseEvent event = .ok (b, k))
    (hhead : env.headObject b k = .ok ())
    (hx : env.analyzeExpense b k = .ok resp)
    (hput : env.putItem (store_receipt_in_dynamodb
      (process_receipt_with_textract b k env.uuid env.today resp) env.nowIso) = .ok ()) :
    lambda_handler env event =
      ({ statusCode := 200, body := jsonDumps "Receipt processed successfully!" },
       ⟨[(b, k)],
        [store_receipt_in_dynamodb
          (process_receipt_with_textract b k env.uuid env.today resp) env.nowIso],
        [send_email_notification env SES_SENDER_EMAIL SES_RECIPIENT_EMAIL
          (process_receipt_with_textract b k env.uuid env.today resp)]⟩) := by
  unfold lambda_handler
  rw [hparse]
  simp only [hhead, hx, hput]

/-! Concrete inputs used by the closed theorems and witnesses. -/

/-- An event naming bucket `receipts` and (already-decoded) key `r.jpg`. -/
def sampleEvent : Event := ⟨[⟨some "receipts", some "r.jpg"⟩]⟩

/-- Environment where every service succeeds and Textract returns zero
expense documents. -/
def envAllOk : Env :=
  { headObject := fun _ _ => .ok ()
    analyzeExpense := fun _ _ => .ok ⟨[]⟩
    putItem := fun _ => .ok ()
    sendEmail := fun _ => .ok ()
    uuid := "uid-0001"
    today := "2025-01-01"
    nowIso := "2025-01-01T00:00:00" }

/-- Environment where only the SES send fails. -/
def envMailDown : Env :=
  { envAllOk with sendEmail := fun _ => .error "MessageRejected" }

/-- Environment where the S3 `head_object` check fails. -/
def envNoObject : Env :=
  { envAllOk with headObject := fun _ _ => .error "404 Not Found" }

/-- Environment where the DynamoDB `put_item` fails. -/
def envStoreDown : Env :=
  { envAllOk with putItem := fun _ => .error "ServiceUnavailable" }

end ReceiptPipeline

namespace ReceiptPipeline

/-! The claims. -/

/-- C1: if the mail-send step fails but object verification, analysis, and
the store write all succeeded, the reported result is still success
(status code 200), and the notification failure is caught inside the
notifier (it appears only as a logged error in the trace). -/
theorem c1_notifier_failure_still_reports_success (env : Env) (event : Event)
    (b k err : String) (resp : TextractResponse)
    (hparse : parseEvent event = .ok (b, k))
    (hhead : env.headObject b k = .ok ())
    (hx : env.analyzeExpense b k = .ok resp)
    (hput : env.putItem (store_receipt_in_dynamodb
      (process_receipt_with_textract b k env.uuid env.today resp) env.nowIso) = .ok ())
    (hmail : env.sendEmail (build_email_message SES_SENDER_EMAIL SES_RECIPIENT_EMAIL
      (process_receipt_with_textract b k env.uuid env.today resp)) = .error err) :
    (lambda_handler env event).1.statusCode = 200
      ∧ (lambda_handler env event).2.emailCalls =
          [⟨build_email_message SES_SENDER_EMAIL SES_RECIPIENT_EMAIL
              (process_receipt_with_textract b k env.uuid env.today resp), some err⟩] := by
  rw [lambda_handler_success env event b k resp hparse hhead hx hput]
  refine ⟨rfl, ?_⟩
  simp [send_email_notification, hmail]

/-- Witness for C1 at a concrete environment whose SES send fails. -/
theorem c1_witness :
    (lambda_handler envMailDown sampleEvent).1.statusCode = 200
      ∧ (lambda_handler envMailDown sampleEvent).2.emailCalls =
          [⟨build_email_message SES_SENDER_EMAIL SES_RECIPIENT_EMAIL
              (process_receipt_with_textract "receipts" "r.jpg" "uid-0001" "2025-01-01" ⟨[]⟩),
            some "MessageRejected"⟩] :=
  c1_notifier_failure_still_reports_success envMailDown sampleEvent
    "receipts" "r.jpg" "MessageRejected" ⟨[]⟩ rfl rfl rfl rfl rfl

/-- C2: when the object-existence check fails, no call is made to Textract,
DynamoDB, or SES (the trace is empty), and the reported status is 500. -/
theorem c2_inaccessible_object_aborts_everything (env : Env) (event : Event)
    (b k err : String)
    (hparse : parseEvent event = .ok (b, k))
    (hhead : env.headObject b k = .error err) :
    (lambda_handler env event).1.statusCode = 500
      ∧ (lambda_handler env event).2 = ⟨[], [], []⟩ := by
  unfold lambda_handler
  rw [hparse]
  simp [hhead]

/-- Witness for C2 at a concrete environment whose `head_object` fails. -/
theorem c2_witness :
    (lambda_handler envNoObject sampleEvent).1.statusCode = 500
      ∧ (lambda_handler envNoObject sampleEvent).2 = ⟨[], [], []⟩ :=
  c2_inaccessible_object_aborts_everything envNoObject sampleEvent
    "receipts" "r.jpg" "404 Not Found" rfl rfl

/-- C3: a Textract response with zero expense documents yields the record
with all four defaults (date = processing date, vendor `Unknown`, total
`0.00`, empty items), and the pipeline still reports success on it. -/
theorem c3_zero_documents_yield_defaults :
    (∀ bucket key receipt_id today : String,
      process_receipt_with_textract bucket key receipt_id today ⟨[]⟩ =
        { receipt_id := receipt_id
          date := today
          vendor := "Unknown"
          total := "0.00"
          items := []
          s3_path := "s3://" ++ bucket ++ "/" ++ key })
    ∧ (lambda_handler envAllOk sampleEvent).1.statusCode = 200 :=
  ⟨fun _ _ _ _ => rfl, rfl⟩

/-- C4: output items number at most the input line items, a line item
without an `ITEM`-tagged field is excluded from the record, and its
presence makes the count strictly smaller. -/
theorem c4_nameless_line_items_are_excluded (bucket key receipt_id today : String)
    (doc : ExpenseDoc) (rest : List ExpenseDoc) :
    (process_receipt_with_textract bucket key receipt_id today ⟨doc :: rest⟩).items.length
        ≤ (lineItemsOf doc.lineItemGroups).length
    ∧ ∀ li ∈ lineItemsOf doc.lineItemGroups, hasItemField li = false →
        buildItem li ∉
            (process_receipt_with_textract bucket key receipt_id today ⟨doc :: rest⟩).items
          ∧ (process_receipt_with_textract bucket key receipt_id today
                ⟨doc :: rest⟩).items.length
              < (lineItemsOf doc.lineItemGroups).length := by
  rw [process_items_eq]
  constructor
  · calc (extract_items doc.lineItemGroups).length
        ≤ ((lineItemsOf doc.lineItemGroups).map buildItem).length :=
          List.length_filter_le _ _
      _ = (lineItemsOf doc.lineItemGroups).length := List.length_map _ _
  · intro li hmem hno
    constructor
    · intro habs
      have h := (List.mem_filter.mp habs).2
      rw [buildItem_name_isSome, hno] at h
      exact Bool.false_ne_true h
    · have hlt := length_filter_lt_of_mem_not (fun it => it.name.isSome)
        ((lineItemsOf doc.lineItemGroups).map buildItem) (buildItem li)
        (List.mem_map_of_mem buildItem hmem)
        (by simp only []; rw [buildItem_name_isSome]; exact hno)
      rwa [List.length_map] at hlt

/-- Witness for C4: one group with two line items, the second of which has
no `ITEM` field. -/
theorem c4_witness :
    buildItem ⟨[⟨some "PRICE", some "1.00"⟩]⟩ ∉
        (process_receipt_with_textract "receipts" "r.jpg" "uid-0001" "2025-01-01"
          ⟨[⟨[], [⟨[⟨[⟨some "ITEM", some "A"⟩]⟩, ⟨[⟨some "PRICE", some "1.00"⟩]⟩]⟩]⟩]⟩).items
      ∧ (process_receipt_with_textract "receipts" "r.jpg" "uid-0001" "2025-01-01"
          ⟨[⟨[], [⟨[⟨[⟨some "ITEM", some "A"⟩]⟩, ⟨[⟨some "PRICE", some "1.00"⟩]⟩]⟩]⟩]⟩).items.length
        < (lineItemsOf [⟨[⟨[⟨some "ITEM", some "A"⟩]⟩, ⟨[⟨some "PRICE", some "1.00"⟩]⟩]⟩]).length :=
  (c4_nameless_line_items_are_excluded "receipts" "r.jpg" "uid-0001" "2025-01-01"
      ⟨[], [⟨[⟨[⟨some "ITEM", some "A"⟩]⟩, ⟨[⟨some "PRICE", some "1.00"⟩]⟩]⟩]⟩ []).2
    ⟨[⟨some "PRICE", some "1.00"⟩]⟩ (by decide) (by decide)

end ReceiptPipeline

namespace ReceiptPipeline

/-- The Textract response of the C5 scenario: one expense document with
summary fields TOTAL `12.50`, VENDOR_NAME `Cafe X`, INVOICE_RECEIPT_DATE
`2024-03-01` and one line-item group holding one line item with fields
ITEM `Coffee`, PRICE `4.00`, QUANTITY `2`. -/
def scenarioResponse : TextractResponse :=
  ⟨[⟨[⟨some "TOTAL", some "12.50"⟩,
      ⟨some "VENDOR_NAME", some "Cafe X"⟩,
      ⟨some "INVOICE_RECEIPT_DATE", some "2024-03-01"⟩],
     [⟨[⟨[⟨some "ITEM", some "Coffee"⟩,
          ⟨some "PRICE", some "4.00"⟩,
          ⟨some "QUANTITY", some "2"⟩]⟩]⟩]⟩]⟩

/-- Environment of the C5 scenario: the analyzer returns
`scenarioResponse` and every service succeeds. -/
def scenarioEnv : Env :=
  { envAllOk with analyzeExpense := fun _ _ => .ok scenarioResponse }

/-- C5: on the Cafe X scenario the single stored record carries vendor
`Cafe X`, date `2024-03-01`, total `12.50` and exactly one item
`{name := Coffee, price := 4.00, quantity := 2}`, all copied verbatim. -/
theorem c5_cafe_x_scenario_stored_verbatim :
    (lambda_handler scenarioEnv sampleEvent).2.putCalls =
      [{ receipt_id := "uid-0001"
         date := "2024-03-01"
         vendor := "Cafe X"
         total := "12.50"
         items := [⟨"Coffee", "4.00", "2"⟩]
         s3_path := "s3://receipts/r.jpg"
         processed_timestamp := "2025-01-01T00:00:00" }] := rfl

/-- C6: if the DynamoDB write fails after analysis succeeded, the pipeline
aborts with status 500 and no SES call is made; the failed write attempt is
the only store interaction. -/
theorem c6_store_failure_aborts_without_email (env : Env) (event : Event)
    (b k err : String) (resp : TextractResponse)
    (hparse : parseEvent event = .ok (b, k))
    (hhead : env.headObject b k = .ok ())
    (hx : env.analyzeExpense b k = .ok resp)
    (hput : env.putItem (store_receipt_in_dynamodb
      (process_receipt_with_textract b k env.uuid env.today resp) env.nowIso) = .error err) :
    (lambda_handler env event).1.statusCode = 500
      ∧ (lambda_handler env event).2.emailCalls = [] := by
  unfold lambda_handler
  rw [hparse]
  simp [hhead, hx, hput]

/-- Witness for C6 at a concrete environment whose `put_item` fails. -/
theorem c6_witness :
    (lambda_handler envStoreDown sampleEvent).1.statusCode = 500
      ∧ (lambda_handler envStoreDown sampleEvent).2.emailCalls = [] :=
  c6_store_failure_aborts_without_email envStoreDown sampleEvent
    "receipts" "r.jpg" "ServiceUnavailable" ⟨[]⟩ rfl rfl rfl rfl

/-- C7: the store writer keeps the record's key fields `(receipt_id, date)`
verbatim, attaches the processing timestamp, normalizes every line item so
that all three fields are present with the documented defaults, and every
invocation performs at most one `put_item`. -/
theorem c7_store_writer_normalizes_and_writes_once :
    (∀ (rd : ReceiptData) (nowIso : String),
      (store_receipt_in_dynamodb rd nowIso).receipt_id = rd.receipt_id
        ∧ (store_receipt_in_dynamodb rd nowIso).date = rd.date
        ∧ (store_receipt_in_dynamodb rd nowIso).processed_timestamp = nowIso
        ∧ (store_receipt_in_dynamodb rd nowIso).items =
            rd.items.map fun it =>
              { name := it.name.getD "Unknown Item"
                price := it.price.getD "0.00"
                quantity := it.quantity.getD "1" })
      ∧ ∀ (env : Env) (event : Event),
          (lambda_handler env event).2.putCalls.length ≤ 1 := by
  refine ⟨fun rd nowIso => ⟨rfl, rfl, rfl, rfl⟩, fun env event => ?_⟩
  unfold lambda_handler
  split
  · simp
  · split
    · simp
    · split
      · simp
      · dsimp only
        split <;> simp

end ReceiptPipeline

namespace ReceiptPipeline

/-- C8: the record's `receipt_id` is exactly the run's freshly generated
UUID — independent of the bucket, key, date and analyzer response — it
survives unchanged into the stored item, and two invocations whose UUID
draws differ can never produce the same `receipt_id`. -/
theorem c8_receipt_id_is_the_run_uuid (bucket key receipt_id today nowIso : String)
    (response : TextractResponse)
    (bucket₂ key₂ receipt_id₂ today₂ : String) (response₂ : TextractResponse)
    (hne : receipt_id ≠ receipt_id₂) :
    (process_receipt_with_textract bucket key receipt_id today response).receipt_id
        = receipt_id
      ∧ (store_receipt_in_dynamodb
          (process_receipt_with_textract bucket key receipt_id today response)
          nowIso).receipt_id = receipt_id
      ∧ (process_receipt_with_textract bucket key receipt_id today response).receipt_id
          ≠ (process_receipt_with_textract bucket₂ key₂ receipt_id₂ today₂
              response₂).receipt_id := by
  refine ⟨process_receipt_id bucket key receipt_id today response, ?_, ?_⟩
  · show (process_receipt_with_textract bucket key receipt_id today response).receipt_id
      = receipt_id
    exact process_receipt_id bucket key receipt_id today response
  · rw [process_receipt_id, process_receipt_id]
    exact hne

/-- Witness for C8 at two concrete runs with distinct UUID draws. -/
theorem c8_witness :
    (process_receipt_with_textract "receipts" "r.jpg" "uid-0001" "2025-01-01"
        ⟨[]⟩).receipt_id = "uid-0001"
      ∧ (store_receipt_in_dynamodb
          (process_receipt_with_textract "receipts" "r.jpg" "uid-0001" "2025-01-01" ⟨[]⟩)
          "2025-01-01T00:00:00").receipt_id = "uid-0001"
      ∧ (process_receipt_with_textract "receipts" "r.jpg" "uid-0001" "2025-01-01"
          ⟨[]⟩).receipt_id
        ≠ (process_receipt_with_textract "receipts" "b.jpg" "uid-0002" "2025-01-02"
            ⟨[]⟩).receipt_id :=
  c8_receipt_id_is_the_run_uuid "receipts" "r.jpg" "uid-0001" "2025-01-01"
    "2025-01-01T00:00:00" ⟨[]⟩ "receipts" "b.jpg" "uid-0002" "2025-01-02" ⟨[]⟩
    (by decide)

/-- C9 (implicit): the handler is total at its public interface — for every
environment and every event, malformed ones included, it returns a response
whose status code is 200 or 500; no exception escapes. -/
theorem c9_handler_always_returns_200_or_500 (env : Env) (event : Event) :
    (lambda_handler env event).1.statusCode = 200
      ∨ (lambda_handler env event).1.statusCode = 500 := by
  unfold lambda_handler
  split
  · simp
  · split
    · simp
    · split
      · simp
      · dsimp only
        split <;> simp

/-- C10 (implicit): a line item is kept exactly when an `ITEM`-tagged field
occurred, regardless of its value: with the value detection missing the
final name is the empty string, and a record built from such an item
includes it with name `""`. -/
theorem c10_item_tag_presence_not_value_decides_keeping :
    (∀ li : LineItem, (buildItem li).name.isSome = hasItemField li)
      ∧ (∀ fs : List ExpenseField,
          (buildItem ⟨fs ++ [⟨some "ITEM", none⟩]⟩).name = some "")
      ∧ ∀ bucket key receipt_id today : String,
          (process_receipt_with_textract bucket key receipt_id today
            ⟨[⟨[], [⟨[⟨[⟨some "ITEM", none⟩]⟩, ⟨[⟨some "ITEM", some ""⟩]⟩]⟩]⟩]⟩).items
            = [⟨some "", none, none⟩, ⟨some "", none, none⟩] := by
  refine ⟨buildItem_name_isSome, fun fs => ?_, fun bucket key receipt_id today => rfl⟩
  rw [buildItem]
  rw [List.foldl_append]
  rfl

end ReceiptPipeline
